import Mathlib

/-!
Verification of the `local_ai.py` validating proxy core (AnomFIN/Overmind).

The Python module is shallowly embedded:
* decoded JSON values become the inductive `JVal` (Python `bool` is a subclass
  of `int`, so the integer/number checks accept booleans explicitly);
* Python `float` literals used by the validator are modelled as rationals,
  which preserves every comparison the code performs (all bounds are exact);
* functions that raise `ValidationError` return `Except String`;
* the upstream HTTP call is modelled by an environment `Nat → HttpResult`
  giving the outcome of each attempt, and the retry loop of `call_lm_studio`
  is an explicit recursion that counts attempts and backoff sleeps.
-/

/-- A decoded JSON value as the Python `json` module produces it.  `null`
decodes to Python `None`; booleans stay distinguishable from ints even though
`isinstance(True, int)` holds in Python (the checks below account for that). -/
inductive JVal where
  | null : JVal
  | bool : Bool → JVal
  | int : Int → JVal
  | num : ℚ → JVal
  | str : String → JVal
  | arr : List JVal → JVal
  | obj : List (String × JVal) → JVal

/-- A decoded JSON object (Python `dict` from `json.loads`), as an association
list with unique keys. -/
abbrev JObj := List (String × JVal)

/-- Raw lookup in a JSON object: `d[k]` if the key is present (even when the
stored value is `null`), otherwise `none`.  Mirrors Python `dict.get(k)` up to
the `null`/absent distinction, which `getOpt` and `lookupD` then resolve. -/
def jget : JObj → String → Option JVal
  | [], _ => none
  | (k, v) :: rest, key => if k = key then some v else jget rest key

/-- Python `payload.get(k)` followed by an `is not None` test: a JSON `null`
value decodes to Python `None`, so a stored `null` and an absent key are
indistinguishable to the caller. -/
def getOpt (p : JObj) (key : String) : Option JVal :=
  match jget p key with
  | some JVal.null => none
  | some v => some v
  | none => none

/-- Python `payload.get(k, d)`: the stored value (including `null`) when the
key is present, the default otherwise. -/
def lookupD (p : JObj) (key : String) (d : JVal) : JVal :=
  (jget p key).getD d

/-- Python truthiness of a decoded JSON value (`None`, `False`, `0`, `0.0`,
empty string, empty list and empty dict are falsy). -/
def truthy : JVal → Bool
  | JVal.null => false
  | JVal.bool b => b
  | JVal.int n => n != 0
  | JVal.num q => q != 0
  | JVal.str s => s != ""
  | JVal.arr l => !l.isEmpty
  | JVal.obj l => !l.isEmpty

/-- Python `x or d` for an optional value (`None or d` is `d`; a falsy value
also yields the default). -/
def pyOr (v : Option JVal) (d : JVal) : JVal :=
  match v with
  | none => d
  | some x => if truthy x then x else d

/-- Python `x if x is not None else d` (after the `null`-collapsing `getOpt`). -/
def ifNoneD (v : Option JVal) (d : JVal) : JVal :=
  v.getD d

/-- Python `isinstance(x, str)`. -/
def isStr : JVal → Bool
  | JVal.str _ => true
  | _ => false

/-- Python `isinstance(x, bool)`. -/
def isBool : JVal → Bool
  | JVal.bool _ => true
  | _ => false

/-- Python `isinstance(x, int)` together with the numeric value used by the
comparisons: `bool` is a subclass of `int` with `True == 1`, `False == 0`. -/
def pyInt : JVal → Option Int
  | JVal.bool b => some (if b then 1 else 0)
  | JVal.int n => some n
  | _ => none

/-- Python `isinstance(x, (int, float))` together with the numeric value used
by the comparisons (booleans again count as ints). -/
def pyNum : JVal → Option ℚ
  | JVal.bool b => some (if b then 1 else 0)
  | JVal.int n => some (n : ℚ)
  | JVal.num q => some q
  | _ => none

/-- Python `len(x)` for the values it is defined on (`TypeError` otherwise). -/
def pyLen : JVal → Option Nat
  | JVal.str s => some s.length
  | JVal.arr l => some l.length
  | JVal.obj l => some l.length
  | _ => none

/-- The outcome of decoding a byte string with `json.loads`.  The byte-level
decoder itself is outside the model; what `parse_json_bytes` inspects is
whether the body was empty, failed to decode (with the decoder message), or
decoded to some JSON value. -/
inductive RawBody where
  | empty : RawBody
  | malformed : String → RawBody
  | value : JVal → RawBody

/-- Function `parse_json_bytes` (src/local_ai.py:72-81): empty body, undecodable body
and a non-object root are three distinct `ValidationError`s; a decoded object
is returned as the request dict. -/
def parse_json_bytes : RawBody → Except String JObj
  | RawBody.empty => Except.error "Empty request body"
  | RawBody.malformed m => Except.error ("Invalid JSON: " ++ m)
  | RawBody.value (JVal.obj o) => Except.ok o
  | RawBody.value _ => Except.error "JSON root must be an object"

/-- The fixed role set `VALID_ROLES` (src/local_ai.py:35). -/
def VALID_ROLES : List String := ["system", "user", "assistant", "function", "tool"]

/-- Constant `MAX_TOKENS_LIMIT` (src/local_ai.py:42). -/
def MAX_TOKENS_LIMIT : Int := 8192

/-- A normalized chat message as built by `validate_messages`
(src/local_ai.py:101): exactly the two keys `role` and `content`. -/
structure ChatMsg where
  role : String
  content : String
deriving DecidableEq

/-- The JSON object `validate_messages` appends for one normalized message. -/
def encodeMsg (m : ChatMsg) : JVal :=
  JVal.obj [("role", JVal.str m.role), ("content", JVal.str m.content)]

/-- One iteration of the `validate_messages` loop (src/local_ai.py:88-101):
the element must be an object whose `role` is a non-empty string from
`VALID_ROLES` and whose `content` is a non-empty string; the normalized
message keeps exactly those two values.  A message `get` sees a stored `null`
as Python `None`, which fails the `isinstance(_, str)` checks like an absent
key does. -/
def validateOneMsg (idx : Nat) (m : JVal) : Except String ChatMsg :=
  match m with
  | JVal.obj fields =>
    match getOpt fields "role" with
    | some (JVal.str role) =>
      if role = "" then
        Except.error ("messages[" ++ toString idx ++ "].role must be a non-empty string")
      else if !(VALID_ROLES.contains role) then
        Except.error ("messages[" ++ toString idx ++ "].role must be one of the valid roles, got " ++ role)
      else
        match getOpt fields "content" with
        | some (JVal.str content) =>
          if content = "" then
            Except.error ("messages[" ++ toString idx ++ "].content must be a non-empty string")
          else Except.ok ⟨role, content⟩
        | _ => Except.error ("messages[" ++ toString idx ++ "].content must be a non-empty string")
    | _ => Except.error ("messages[" ++ toString idx ++ "].role must be a non-empty string")
  | _ => Except.error ("messages[" ++ toString idx ++ "] must be an object")

/-- The element loop of `validate_messages` (src/local_ai.py:88-102), with the
running index used in error messages; the first offending element aborts. -/
def validateMsgList : Nat → List JVal → Except String (List ChatMsg)
  | _, [] => Except.ok []
  | idx, m :: rest =>
    match validateOneMsg idx m with
    | Except.error e => Except.error e
    | Except.ok c =>
      match validateMsgList (idx + 1) rest with
      | Except.error e => Except.error e
      | Except.ok tail => Except.ok (c :: tail)

/-- Function `validate_messages` (src/local_ai.py:84-102): the value must be a
non-empty JSON array, and every element a message object with a non-empty
role drawn from `VALID_ROLES` and a non-empty string content. -/
def validate_messages : Option JVal → Except String (List ChatMsg)
  | some (JVal.arr (m :: ms)) => validateMsgList 0 (m :: ms)
  | _ => Except.error "messages must be a non-empty array"

/-- The `model` check of `validate_chat_request` (src/local_ai.py:107-109). -/
def checkModel : Option JVal → Except String Unit
  | none => Except.ok ()
  | some v => if isStr v then Except.ok () else Except.error "model must be a string"

/-- The `max_tokens` check of `validate_chat_request`
(src/local_ai.py:111-115): `isinstance(x, int)` (true of booleans) and
`0 < x ≤ MAX_TOKENS_LIMIT`. -/
def checkMaxTokens : Option JVal → Except String Unit
  | none => Except.ok ()
  | some v =>
    match pyInt v with
    | some n =>
      if n ≤ 0 ∨ n > MAX_TOKENS_LIMIT then
        Except.error "max_tokens must be a positive integer <= 8192"
      else Except.ok ()
    | none => Except.error "max_tokens must be a positive integer <= 8192"

/-- The `temperature` check of `validate_chat_request`
(src/local_ai.py:117-122): `isinstance(x, (int, float))` and `0 ≤ x ≤ 2`. -/
def checkTemperature : Option JVal → Except String Unit
  | none => Except.ok ()
  | some v =>
    match pyNum v with
    | some q =>
      if 0 ≤ q ∧ q ≤ 2 then Except.ok ()
      else Except.error "temperature must be between 0.0 and 2.0"
    | none => Except.error "temperature must be between 0.0 and 2.0"

/-- The `top_p` check of `validate_chat_request` (src/local_ai.py:124-126). -/
def checkTopP : Option JVal → Except String Unit
  | none => Except.ok ()
  | some v =>
    match pyNum v with
    | some q =>
      if 0 ≤ q ∧ q ≤ 1 then Except.ok ()
      else Except.error "top_p must be between 0 and 1"
    | none => Except.error "top_p must be between 0 and 1"

/-- The `stream` check of `validate_chat_request` (src/local_ai.py:128-130). -/
def checkStream : Option JVal → Except String Unit
  | none => Except.ok ()
  | some v => if isBool v then Except.ok () else Except.error "stream must be a boolean"

/-- The result dict literal of `validate_chat_request`
(src/local_ai.py:132-139), with Python defaulting semantics: `or` for
`model`/`max_tokens` and `is not None` for the rest. -/
def buildValidated (payload : JObj) (messages : List ChatMsg) : JObj :=
  [("model", pyOr (getOpt payload "model") (JVal.str "local-model")),
   ("messages", JVal.arr (messages.map encodeMsg)),
   ("max_tokens", pyOr (getOpt payload "max_tokens") (JVal.int 512)),
   ("temperature", ifNoneD (getOpt payload "temperature") (JVal.num (7/10))),
   ("top_p", ifNoneD (getOpt payload "top_p") (JVal.int 1)),
   ("stream", ifNoneD (getOpt payload "stream") (JVal.bool false))]

/-- Function `validate_chat_request` (src/local_ai.py:105-139): validate the messages
and the optional scalar fields in source order, then return the fully
populated request dict. -/
def validate_chat_request (payload : JObj) : Except String JObj :=
  match validate_messages (getOpt payload "messages") with
  | Except.error e => Except.error e
  | Except.ok messages =>
    match checkModel (getOpt payload "model") with
    | Except.error e => Except.error e
    | Except.ok _ =>
      match checkMaxTokens (getOpt payload "max_tokens") with
      | Except.error e => Except.error e
      | Except.ok _ =>
        match checkTemperature (getOpt payload "temperature") with
        | Except.error e => Except.error e
        | Except.ok _ =>
          match checkTopP (getOpt payload "top_p") with
          | Except.error e => Except.error e
          | Except.ok _ =>
            match checkStream (getOpt payload "stream") with
            | Except.error e => Except.error e
            | Except.ok _ => Except.ok (buildValidated payload messages)

/-- The example payload of the spec scenario:
`messages = [ (role user, content Hello) ]` and nothing else. -/
def helloPayload : JObj :=
  [("messages", JVal.arr [JVal.obj [("role", JVal.str "user"), ("content", JVal.str "Hello")]])]

/-- The fully defaulted request the validator is documented to produce for
`helloPayload`. -/
def helloValidated : JObj :=
  [("model", JVal.str "local-model"),
   ("messages", JVal.arr [JVal.obj [("role", JVal.str "user"), ("content", JVal.str "Hello")]]),
   ("max_tokens", JVal.int 512),
   ("temperature", JVal.num (7/10)),
   ("top_p", JVal.int 1),
   ("stream", JVal.bool false)]

/-- What Python iterates over in `for msg in messages` (src/local_ai.py:146):
a list yields its elements, a string its one-character substrings, a dict its
keys; iterating any other JSON value raises `TypeError` (`none`). -/
def iterElems : JVal → Option (List JVal)
  | JVal.arr l => some l
  | JVal.str s => some (s.data.map (fun c => JVal.str (String.singleton c)))
  | JVal.obj l => some (l.map (fun kv => JVal.str kv.1))
  | _ => none

/-- One entry of the redacted message list (src/local_ai.py:145):
`role` is `msg.get("role", "")`, `content_length` is `len(msg.get("content", ""))`
(`none` models the `TypeError` when that value has no `len`). -/
def redactMsg (fields : JObj) : Option JVal :=
  (pyLen (lookupD fields "content" (JVal.str ""))).map
    (fun n => JVal.obj [("role", lookupD fields "role" (JVal.str "")),
                        ("content_length", JVal.int (Int.ofNat n))])

/-- The list comprehension of `redact_for_logs` over the message dicts: the
whole comprehension raises (is `none`) as soon as one element does. -/
def redactMsgs : List JObj → Option (List JVal)
  | [] => some []
  | f :: rest =>
    match redactMsg f with
    | none => none
    | some r =>
      match redactMsgs rest with
      | none => none
      | some rs => some (r :: rs)

/-- Function `redact_for_logs` (src/local_ai.py:142-156): every message is projected to
its role and content length; the scalar fields are copied through with raw
`dict.get` semantics (absent key becomes `null` in the log record).  `none`
models a Python `TypeError` (possible only on unvalidated input). -/
def redact_for_logs (payload : JObj) : Option JObj := do
  let elems ← iterElems (lookupD payload "messages" (JVal.arr []))
  let dicts := elems.filterMap (fun m => match m with | JVal.obj f => some f | _ => none)
  let rmsgs ← redactMsgs dicts
  pure [("model", lookupD payload "model" JVal.null),
        ("messages", JVal.arr rmsgs),
        ("max_tokens", lookupD payload "max_tokens" JVal.null),
        ("temperature", lookupD payload "temperature" JVal.null),
        ("top_p", lookupD payload "top_p" JVal.null),
        ("stream", lookupD payload "stream" JVal.null)]

/-- A Python value passed as a logging field: `None`, a JSON-serializable
value, or an arbitrary object that `json.dumps` cannot serialize (the string
names the offending type, e.g. `set`). -/
inductive PyVal where
  | pynone : PyVal
  | pyjson : JVal → PyVal
  | pyraw : String → PyVal

/-- Whether `json.dumps` can serialize the value. -/
def serializablePy : PyVal → Bool
  | PyVal.pyraw _ => false
  | _ => true

/-- Function `log_json` (src/local_ai.py:61-69): drop `None`-valued fields, build the
payload with the timestamp, level and event, and serialize it.  `json.dumps`
raises `TypeError` on an unserializable field value, and the code has no
handler for it, so the exception escapes `log_json`; `Except.error` models
that escape, `Except.ok` the emitted record. -/
def log_json (ts level event : String) (fields : List (String × PyVal)) :
    Except String (List (String × PyVal)) :=
  let safe := fields.filter (fun kv => match kv.2 with | PyVal.pynone => false | _ => true)
  let payload := ("ts", PyVal.pyjson (JVal.str ts)) ::
                 ("level", PyVal.pyjson (JVal.str level)) ::
                 ("event", PyVal.pyjson (JVal.str event)) :: safe
  if payload.all (fun kv => serializablePy kv.2) then Except.ok payload
  else Except.error "TypeError: object is not JSON serializable"

/-- The outcome of one `urlopen` attempt inside `call_lm_studio`: a response
(status code plus raw body), an `HTTPError` (carrying its status code and
message), or a `URLError` (network-level failure). -/
inductive HttpResult where
  | success : Int → RawBody → HttpResult
  | httpError : Option Int → String → HttpResult
  | urlError : String → HttpResult

/-- The observable behaviour of one run of `call_lm_studio`: how many upstream
attempts were made, how many backoff sleeps happened between them, and the
final result (`Except.error` is the raised `ConnectionError` message). -/
structure CallTrace where
  attempts : Nat
  backoffs : Nat
  result : Except String (Int × JObj)

/-- Statement `raise ConnectionError(last_error or "Unknown LM Studio error")`
(src/local_ai.py:210). -/
def lastErrStr (le : Option String) : String :=
  le.getD "Unknown LM Studio error"

/-- The body of the `for attempt in range(retries + 1)` loop of
`call_lm_studio` (src/local_ai.py:179-208), recursing on the remaining fuel
(`retries + 1 - attempt`).  Each branch mirrors one `except` clause: a parse
failure of the response body is retryable with the backend-naming message
prefix; an `HTTPError` with a non-5xx status breaks immediately; 5xx,
status-less `HTTPError` and `URLError` are retryable.  Falling off the loop
(fuel 0) raises the last error, as after the loop in the source. -/
def callFrom (responses : Nat → HttpResult) (retries : Nat) :
    Nat → Nat → Option String → CallTrace
  | 0, _, le => ⟨0, 0, Except.error (lastErrStr le)⟩
  | fuel + 1, attempt, _le =>
    match responses attempt with
    | HttpResult.success status raw =>
      match parse_json_bytes raw with
      | Except.ok data => ⟨1, 0, Except.ok (status, data)⟩
      | Except.error e =>
        let le' := some ("Invalid response from LM Studio: " ++ e)
        if attempt ≥ retries then ⟨1, 0, Except.error (lastErrStr le')⟩
        else
          let t := callFrom responses retries fuel (attempt + 1) le'
          ⟨t.attempts + 1, t.backoffs + 1, t.result⟩
    | HttpResult.httpError code msg =>
      let le' := some msg
      match code with
      | some c =>
        if ¬ (500 ≤ c ∧ c < 600) then ⟨1, 0, Except.error (lastErrStr le')⟩
        else if attempt ≥ retries then ⟨1, 0, Except.error (lastErrStr le')⟩
        else
          let t := callFrom responses retries fuel (attempt + 1) le'
          ⟨t.attempts + 1, t.backoffs + 1, t.result⟩
      | none =>
        if attempt ≥ retries then ⟨1, 0, Except.error (lastErrStr le')⟩
        else
          let t := callFrom responses retries fuel (attempt + 1) le'
          ⟨t.attempts + 1, t.backoffs + 1, t.result⟩
    | HttpResult.urlError msg =>
      let le' := some msg
      if attempt ≥ retries then ⟨1, 0, Except.error (lastErrStr le')⟩
      else
        let t := callFrom responses retries fuel (attempt + 1) le'
        ⟨t.attempts + 1, t.backoffs + 1, t.result⟩

/-- Function `call_lm_studio` (src/local_ai.py:176-210) with the upstream modelled as
the sequence of per-attempt outcomes: run the loop from attempt 0 with
`last_error = None` and `retries + 1` iterations available. -/
def call_lm_studio (retries : Nat) (responses : Nat → HttpResult) : CallTrace :=
  callFrom responses retries (retries + 1) 0 none

/-- The 10 MiB stdin cap (src/local_ai.py:273). -/
def STDIN_MAX_BYTES : Nat := 10 * 1024 * 1024

/-- The chunked read loop of `handle_stdin` (src/local_ai.py:277-287): add
each chunk length to the running total and abort as soon as it exceeds the
cap.  The input stream is modelled by the lengths of the successive
`read(8192)` results. -/
def stdinOverCap : Nat → List Nat → Bool
  | _, [] => false
  | total, c :: rest =>
    if total + c > STDIN_MAX_BYTES then true else stdinOverCap (total + c) rest

/-- The error line written for an oversized stdin payload
(src/local_ai.py:283-285). -/
def tooLargeLine : JVal :=
  JVal.obj [("error", JVal.str "stdin payload too large")]

/-- The observable behaviour of one `handle_stdin` run: the JSON objects
written to stdout (one per line) and the returned exit code. -/
structure StdinResult where
  outLines : List JVal
  exitCode : Nat

/-- Function `handle_stdin` (src/local_ai.py:271-307): abort with one error line and
exit code 1 when the chunked read exceeds the cap (the buffered data is never
parsed); otherwise parse and validate (`ValidationError` → one error line,
exit 1), call the upstream (`ConnectionError` → one error line, exit 2), and
on success write the one status/data line and exit 0.  The decoded stdin
content is `body`; the upstream behaviour is `responses`, as in
`call_lm_studio`. -/
def handle_stdin (retries : Nat) (responses : Nat → HttpResult)
    (chunks : List Nat) (body : RawBody) : StdinResult :=
  if stdinOverCap 0 chunks then ⟨[tooLargeLine], 1⟩
  else
    match parse_json_bytes body with
    | Except.error e => ⟨[JVal.obj [("error", JVal.str e)]], 1⟩
    | Except.ok payload =>
      match validate_chat_request payload with
      | Except.error e => ⟨[JVal.obj [("error", JVal.str e)]], 1⟩
      | Except.ok _validated =>
        match (call_lm_studio retries responses).result with
        | Except.error e => ⟨[JVal.obj [("error", JVal.str e)]], 2⟩
        | Except.ok (status, data) =>
          ⟨[JVal.obj [("status", JVal.int status), ("data", JVal.obj data)]], 0⟩

/-- Python `str.strip()`: remove leading and trailing whitespace.  Defined
structurally over the character list so that it evaluates by reduction. -/
def pyStrip (s : String) : String :=
  String.mk (((s.data.dropWhile Char.isWhitespace).reverse.dropWhile
    Char.isWhitespace).reverse)

/-- Continuation of a digit run in Python `int()` syntax, PEP 515 included:
after the first digit, further digits may follow directly or after a single
underscore separator (an underscore must sit between two digits, so a
trailing, doubled or sign-adjacent underscore is a `ValueError`). -/
def digitsVal : List Char → Nat → Option Nat
  | [], acc => some acc
  | ['_'], _ => none
  | '_' :: c :: rest, acc =>
    if c.isDigit then digitsVal rest (acc * 10 + (c.toNat - 48)) else none
  | c :: rest, acc =>
    if c.isDigit then digitsVal rest (acc * 10 + (c.toNat - 48)) else none

/-- Digit-run parser for Python `int()`: the run must start with a digit,
then `digitsVal` allows underscore-separated digit groups. -/
def digitsToNat : List Char → Option Nat
  | [] => none
  | c :: rest => if c.isDigit then digitsVal rest (c.toNat - 48) else none

/-- Python `int(s)` for decimal literals: optional surrounding whitespace,
optional sign, then digits with optional single underscore separators
(`none` is the `ValueError`).  The model is exact for strings over
`envCharOK` characters; outside that domain (non-ASCII decimal digits,
exotic whitespace such as form feed) Python accepts more, so theorems about
the failing direction carry an `envCharOK` hypothesis. -/
def pyParseInt (s : String) : Option Int :=
  match (pyStrip s).data with
  | [] => none
  | c :: rest =>
    if c = '-' then (digitsToNat rest).map (fun n => -(n : Int))
    else if c = '+' then (digitsToNat rest).map (fun n => (n : Int))
    else (digitsToNat (c :: rest)).map (fun n => (n : Int))

/-- The character domain on which this model of Python `int()` is exact:
ASCII without the whitespace characters that Python strips but `pyStrip`
does not (vertical tab, form feed, and the four ASCII separator controls).
Non-ASCII characters are excluded because Python also accepts non-ASCII
decimal digits and Unicode whitespace. -/
def envCharOK (c : Char) : Bool :=
  c.toNat ≤ 127 && !(c = '\x0b' || c = '\x0c' ||
    c = '\x1c' || c = '\x1d' || c = '\x1e' || c = '\x1f')

/-- One environment-sourced integer option of `parse_args`
(src/local_ai.py:326-358): an unset, empty or whitespace-only variable keeps
the compiled-in default; otherwise `int(value)` is attempted and a
`ValueError` becomes a fatal `parser.error` (the `Except.error`), reported
before any service starts.  No range check is performed. -/
def resolveEnvInt (env : Option String) (dflt : Int) (errLabel : String) :
    Except String Int :=
  match env with
  | none => Except.ok dflt
  | some s =>
    if s ≠ "" ∧ pyStrip s ≠ "" then
      match pyParseInt s with
      | some n => Except.ok n
      | none => Except.error (errLabel ++ s)
    else Except.ok dflt

/-- The three integer options of `parse_args` (src/local_ai.py:321-362) in
source order: listen port, timeout, retries.  The first failure is fatal
(`parser.error` exits the process before the server or the stdin handler
runs); on success the process starts with exactly these values. -/
def resolveConfigInts (portEnv timeoutEnv retriesEnv : Option String) :
    Except String (Int × Int × Int) :=
  match resolveEnvInt portEnv 8081 "LOCAL_AI_LISTEN_PORT must be an integer, got: " with
  | Except.error e => Except.error e
  | Except.ok port =>
    match resolveEnvInt timeoutEnv 30 "LOCAL_AI_TIMEOUT must be an integer, got: " with
    | Except.error e => Except.error e
    | Except.ok t =>
      match resolveEnvInt retriesEnv 2 "LOCAL_AI_RETRIES must be an integer, got: " with
      | Except.error e => Except.error e
      | Except.ok r => Except.ok (port, t, r)

mutual

/-- All string atoms occurring as values inside a JSON value (object keys are
the fixed record skeleton and are not collected). -/
def jstrs : JVal → List String
  | JVal.null => []
  | JVal.bool _ => []
  | JVal.int _ => []
  | JVal.num _ => []
  | JVal.str s => [s]
  | JVal.arr l => jstrsList l
  | JVal.obj l => jstrsObj l

/-- String atoms of a list of JSON values. -/
def jstrsList : List JVal → List String
  | [] => []
  | v :: rest => jstrs v ++ jstrsList rest

/-- String atoms of the values of a JSON object. -/
def jstrsObj : JObj → List String
  | [] => []
  | (_, v) :: rest => jstrs v ++ jstrsObj rest

end

/-- A non-null value found by raw lookup survives the `null`-collapsing
`getOpt`. -/
theorem getOpt_of_jget (p : JObj) (k : String) (v : JVal)
    (hj : jget p k = some v) (hv : v ≠ JVal.null) : getOpt p k = some v := by
  unfold getOpt
  rw [hj]
  cases v <;> simp_all

/-- A message accepted by the element check is re-accepted verbatim after
normalization: `validateOneMsg` on `encodeMsg` of its own output succeeds
with the same message, at any index. -/
theorem validateOneMsg_roundtrip (idx idx' : Nat) (m : JVal) (c : ChatMsg)
    (h : validateOneMsg idx m = Except.ok c) :
    validateOneMsg idx' (encodeMsg c) = Except.ok c := by
  cases m <;> simp only [validateOneMsg] at h <;> try exact Except.noConfusion h
  case obj fields =>
    cases hr : getOpt fields "role" with
    | none => simp only [hr] at h; exact Except.noConfusion h
    | some rv =>
      cases rv <;> simp only [hr] at h <;> try exact Except.noConfusion h
      case str role =>
        by_cases hrole : role = ""
        · rw [if_pos hrole] at h; exact Except.noConfusion h
        · rw [if_neg hrole] at h
          cases hmem : VALID_ROLES.contains role with
          | false => simp only [hmem] at h; simp at h
          | true =>
            simp only [hmem, Bool.not_true, Bool.false_eq_true, if_false] at h
            cases hc : getOpt fields "content" with
            | none => simp only [hc] at h; exact Except.noConfusion h
            | some cv =>
              cases cv <;> simp only [hc] at h <;> try exact Except.noConfusion h
              rename_i content
              by_cases hcontent : content = ""
              · rw [if_pos hcontent] at h; exact Except.noConfusion h
              · rw [if_neg hcontent] at h
                injection h with h
                subst h
                simp [validateOneMsg, encodeMsg, getOpt, jget, hrole, hmem, hcontent]
                simpa using hmem

/-- The whole normalized message list re-validates to itself, at any starting
index. -/
theorem validateMsgList_roundtrip :
    ∀ (l : List JVal) (idx idx' : Nat) (ms : List ChatMsg),
      validateMsgList idx l = Except.ok ms →
      validateMsgList idx' (ms.map encodeMsg) = Except.ok ms := by
  intro l
  induction l with
  | nil =>
    intro idx idx' ms h
    unfold validateMsgList at h
    injection h with h
    subst h
    rfl
  | cons m rest ih =>
    intro idx idx' ms h
    unfold validateMsgList at h
    cases h1 : validateOneMsg idx m with
    | error e => rw [h1] at h; cases h
    | ok c =>
      rw [h1] at h
      cases h2 : validateMsgList (idx + 1) rest with
      | error e => rw [h2] at h; cases h
      | ok tail =>
        rw [h2] at h
        injection h with h
        subst h
        simp only [List.map_cons, validateMsgList]
        rw [validateOneMsg_roundtrip idx idx' m c h1, ih (idx + 1) (idx' + 1) tail h2]

/-- A successful `validate_messages` run yields a non-empty normalized list
that re-validates to itself. -/
theorem validate_messages_roundtrip (o : Option JVal) (ms : List ChatMsg)
    (h : validate_messages o = Except.ok ms) :
    validate_messages (some (JVal.arr (ms.map encodeMsg))) = Except.ok ms ∧ ms ≠ [] := by
  unfold validate_messages at h
  split at h
  case h_1 m rest =>
    have hne : ms ≠ [] := by
      unfold validateMsgList at h
      cases h1 : validateOneMsg 0 m with
      | error e => rw [h1] at h; cases h
      | ok c =>
        rw [h1] at h
        cases h2 : validateMsgList 1 rest with
        | error e => rw [h2] at h; cases h
        | ok tail => rw [h2] at h; injection h with h; subst h; simp
    refine ⟨?_, hne⟩
    have hr := validateMsgList_roundtrip (m :: rest) 0 0 ms h
    cases hms : ms with
    | nil => exact absurd hms hne
    | cons c cs =>
      subst hms
      simpa [validate_messages] using hr
  case h_2 ne => cases h

/-- After a successful `model` check, the built `model` field is a non-empty
string (either the non-empty model of the caller or the default). -/
theorem checkModel_build (o : Option JVal) (h : checkModel o = Except.ok ()) :
    ∃ s, pyOr o (JVal.str "local-model") = JVal.str s ∧ s ≠ "" := by
  cases o with
  | none => exact ⟨"local-model", rfl, by decide⟩
  | some v =>
    cases v <;> simp [checkModel, isStr] at h
    rename_i s
    by_cases hs : s = ""
    · subst hs
      exact ⟨"local-model", by simp [pyOr, truthy], by decide⟩
    · refine ⟨s, ?_, hs⟩
      simp [pyOr, truthy, hs]

/-- After a successful `max_tokens` check, the built `max_tokens` field
re-passes the check, is truthy and non-null, and contains no string atom. -/
theorem checkMaxTokens_build (o : Option JVal) (h : checkMaxTokens o = Except.ok ()) :
    checkMaxTokens (some (pyOr o (JVal.int 512))) = Except.ok () ∧
    truthy (pyOr o (JVal.int 512)) = true ∧
    pyOr o (JVal.int 512) ≠ JVal.null ∧
    jstrs (pyOr o (JVal.int 512)) = [] := by
  cases o with
  | none =>
    refine ⟨rfl, rfl, ?_, rfl⟩
    exact fun hc => JVal.noConfusion hc
  | some v =>
    cases v <;> simp only [checkMaxTokens, pyInt] at h <;> try exact Except.noConfusion h
    case bool b =>
      cases b
      · simp at h
      · exact ⟨h, rfl, fun hc => JVal.noConfusion hc, rfl⟩
    case int n =>
      have hn : ¬(n ≤ 0 ∨ n > MAX_TOKENS_LIMIT) := by
        by_contra hc
        rw [if_pos hc] at h
        exact Except.noConfusion h
      have hpos : 0 < n := by omega
      have htr : truthy (JVal.int n) = true := by
        simp [truthy]
        omega
      have hor : pyOr (some (JVal.int n)) (JVal.int 512) = JVal.int n := by
        simp [pyOr, htr]
      refine ⟨?_, ?_, ?_, ?_⟩ <;> rw [hor]
      · simp [checkMaxTokens, pyInt, hn]
      · exact htr
      · exact fun hc => JVal.noConfusion hc
      · rfl

/-- After a successful `temperature` check, the built `temperature` field
re-passes the check, is non-null, and contains no string atom. -/
theorem checkTemperature_build (o : Option JVal) (h : checkTemperature o = Except.ok ()) :
    checkTemperature (some (ifNoneD o (JVal.num (7/10)))) = Except.ok () ∧
    ifNoneD o (JVal.num (7/10)) ≠ JVal.null ∧
    jstrs (ifNoneD o (JVal.num (7/10))) = [] := by
  cases o with
  | none =>
    refine ⟨?_, fun hc => JVal.noConfusion hc, rfl⟩
    show checkTemperature (some (JVal.num (7/10))) = Except.ok ()
    simp [checkTemperature, pyNum]
    norm_num
  | some v =>
    refine ⟨h, ?_, ?_⟩ <;>
      cases v <;> simp only [checkTemperature, pyNum] at h <;>
      first
        | exact Except.noConfusion h
        | exact fun hc => JVal.noConfusion hc
        | rfl

/-- After a successful `top_p` check, the built `top_p` field re-passes the
check, is non-null, and contains no string atom. -/
theorem checkTopP_build (o : Option JVal) (h : checkTopP o = Except.ok ()) :
    checkTopP (some (ifNoneD o (JVal.int 1))) = Except.ok () ∧
    ifNoneD o (JVal.int 1) ≠ JVal.null ∧
    jstrs (ifNoneD o (JVal.int 1)) = [] := by
  cases o with
  | none =>
    refine ⟨?_, fun hc => JVal.noConfusion hc, rfl⟩
    show checkTopP (some (JVal.int 1)) = Except.ok ()
    simp [checkTopP, pyNum]
  | some v =>
    refine ⟨h, ?_, ?_⟩ <;>
      cases v <;> simp only [checkTopP, pyNum] at h <;>
      first
        | exact Except.noConfusion h
        | exact fun hc => JVal.noConfusion hc
        | rfl

/-- After a successful `stream` check, the built `stream` field re-passes the
check, is non-null, and contains no string atom. -/
theorem checkStream_build (o : Option JVal) (h : checkStream o = Except.ok ()) :
    checkStream (some (ifNoneD o (JVal.bool false))) = Except.ok () ∧
    ifNoneD o (JVal.bool false) ≠ JVal.null ∧
    jstrs (ifNoneD o (JVal.bool false)) = [] := by
  cases o with
  | none => exact ⟨rfl, fun hc => JVal.noConfusion hc, rfl⟩
  | some v =>
    refine ⟨h, ?_, ?_⟩ <;>
      cases v <;> simp only [checkStream, isBool] at h <;>
      first
        | exact Except.noConfusion h
        | exact fun hc => JVal.noConfusion hc
        | rfl

/-- Decomposition of a successful validation: every check passed on the
original payload and the result is the built dict. -/
theorem validate_ok_build (p q : JObj) (h : validate_chat_request p = Except.ok q) :
    ∃ ms, validate_messages (getOpt p "messages") = Except.ok ms ∧
      checkModel (getOpt p "model") = Except.ok () ∧
      checkMaxTokens (getOpt p "max_tokens") = Except.ok () ∧
      checkTemperature (getOpt p "temperature") = Except.ok () ∧
      checkTopP (getOpt p "top_p") = Except.ok () ∧
      checkStream (getOpt p "stream") = Except.ok () ∧
      q = buildValidated p ms := by
  unfold validate_chat_request at h
  cases h1 : validate_messages (getOpt p "messages") with
  | error e => rw [h1] at h; exact Except.noConfusion h
  | ok ms =>
    rw [h1] at h
    cases h2 : checkModel (getOpt p "model") with
    | error e => simp only [h2] at h; exact Except.noConfusion h
    | ok u =>
      cases u
      simp only [h2] at h
      cases h3 : checkMaxTokens (getOpt p "max_tokens") with
      | error e => simp only [h3] at h; exact Except.noConfusion h
      | ok u =>
        cases u
        simp only [h3] at h
        cases h4 : checkTemperature (getOpt p "temperature") with
        | error e => simp only [h4] at h; exact Except.noConfusion h
        | ok u =>
          cases u
          simp only [h4] at h
          cases h5 : checkTopP (getOpt p "top_p") with
          | error e => simp only [h5] at h; exact Except.noConfusion h
          | ok u =>
            cases u
            simp only [h5] at h
            cases h6 : checkStream (getOpt p "stream") with
            | error e => simp only [h6] at h; exact Except.noConfusion h
            | ok u =>
              cases u
              simp only [h6] at h
              injection h with h
              exact ⟨ms, rfl, rfl, rfl, rfl, rfl, rfl, h.symm⟩

/-- Shape of every successful validation result: six fields in fixed order,
a non-empty normalized message list that re-validates to itself, a non-empty
model string, and scalar fields that re-pass their checks, are non-null,
string-free, and (for `max_tokens`) truthy. -/
theorem validate_ok_shape (p q : JObj) (h : validate_chat_request p = Except.ok q) :
    ∃ (c : ChatMsg) (cs : List ChatMsg) (mv : String) (mt t tp s : JVal),
      q = [("model", JVal.str mv),
           ("messages", JVal.arr ((c :: cs).map encodeMsg)),
           ("max_tokens", mt), ("temperature", t), ("top_p", tp), ("stream", s)] ∧
      validateMsgList 0 ((c :: cs).map encodeMsg) = Except.ok (c :: cs) ∧
      mv ≠ "" ∧
      checkMaxTokens (some mt) = Except.ok () ∧ truthy mt = true ∧
        mt ≠ JVal.null ∧ jstrs mt = [] ∧
      checkTemperature (some t) = Except.ok () ∧ t ≠ JVal.null ∧ jstrs t = [] ∧
      checkTopP (some tp) = Except.ok () ∧ tp ≠ JVal.null ∧ jstrs tp = [] ∧
      checkStream (some s) = Except.ok () ∧ s ≠ JVal.null ∧ jstrs s = [] := by
  obtain ⟨ms, hm, h2, h3, h4, h5, h6, hq⟩ := validate_ok_build p q h
  obtain ⟨hrt, hne⟩ := validate_messages_roundtrip _ _ hm
  obtain ⟨mv, hmv, hmvne⟩ := checkModel_build _ h2
  obtain ⟨hmt1, hmt2, hmt3, hmt4⟩ := checkMaxTokens_build _ h3
  obtain ⟨ht1, ht2, ht3⟩ := checkTemperature_build _ h4
  obtain ⟨hp1, hp2, hp3⟩ := checkTopP_build _ h5
  obtain ⟨hs1, hs2, hs3⟩ := checkStream_build _ h6
  cases hms : ms with
  | nil => exact absurd hms hne
  | cons c cs =>
    subst hms
    refine ⟨c, cs, mv, _, _, _, _, ?_, ?_, hmvne, hmt1, hmt2, hmt3, hmt4,
            ht1, ht2, ht3, hp1, hp2, hp3, hs1, hs2, hs3⟩
    · rw [hq]
      unfold buildValidated
      rw [hmv]
    · have := validate_messages_roundtrip _ _ hm
      simpa [validate_messages] using this.1

/-- C4 (idempotence): re-validating a validated request returns it unchanged.
Every accepted payload maps to a fully defaulted dict, and that dict passes
validation again with the exact same result. -/
theorem claim_C4_idempotent (p q : JObj) (h : validate_chat_request p = Except.ok q) :
    validate_chat_request q = Except.ok q := by
  obtain ⟨c, cs, mv, mt, t, tp, s, hq, hml, hmv, hcm, hmt, hmn, _, hct, htn, _,
          hcp, hpn, _, hcs, hsn, _⟩ := validate_ok_shape p q h
  subst hq
  have e1 : validate_messages (getOpt
      [("model", JVal.str mv),
       ("messages", JVal.arr ((c :: cs).map encodeMsg)),
       ("max_tokens", mt), ("temperature", t), ("top_p", tp), ("stream", s)]
      "messages") = Except.ok (c :: cs) := by
    have hgo : getOpt
        [("model", JVal.str mv),
         ("messages", JVal.arr ((c :: cs).map encodeMsg)),
         ("max_tokens", mt), ("temperature", t), ("top_p", tp), ("stream", s)]
        "messages" = some (JVal.arr (encodeMsg c :: cs.map encodeMsg)) := rfl
    rw [hgo]
    simpa [validate_messages] using hml
  have e2 : checkModel (getOpt
      [("model", JVal.str mv),
       ("messages", JVal.arr ((c :: cs).map encodeMsg)),
       ("max_tokens", mt), ("temperature", t), ("top_p", tp), ("stream", s)]
      "model") = Except.ok () := rfl
  have g3 : getOpt
      [("model", JVal.str mv),
       ("messages", JVal.arr ((c :: cs).map encodeMsg)),
       ("max_tokens", mt), ("temperature", t), ("top_p", tp), ("stream", s)]
      "max_tokens" = some mt := getOpt_of_jget _ _ mt rfl hmn
  have g4 : getOpt
      [("model", JVal.str mv),
       ("messages", JVal.arr ((c :: cs).map encodeMsg)),
       ("max_tokens", mt), ("temperature", t), ("top_p", tp), ("stream", s)]
      "temperature" = some t := getOpt_of_jget _ _ t rfl htn
  have g5 : getOpt
      [("model", JVal.str mv),
       ("messages", JVal.arr ((c :: cs).map encodeMsg)),
       ("max_tokens", mt), ("temperature", t), ("top_p", tp), ("stream", s)]
      "top_p" = some tp := getOpt_of_jget _ _ tp rfl hpn
  have g6 : getOpt
      [("model", JVal.str mv),
       ("messages", JVal.arr ((c :: cs).map encodeMsg)),
       ("max_tokens", mt), ("temperature", t), ("top_p", tp), ("stream", s)]
      "stream" = some s := getOpt_of_jget _ _ s rfl hsn
  unfold validate_chat_request
  rw [e1, e2]
  simp only [g3, g4, g5, g6, hcm, hct, hcp, hcs, ifNoneD, Option.getD_some]
  unfold buildValidated
  have f1 : pyOr (some (JVal.str mv)) (JVal.str "local-model") = JVal.str mv := by
    simp [pyOr, truthy, hmv]
  have f2 : pyOr (some mt) (JVal.int 512) = mt := by
    simp [pyOr, hmt]
  rw [g3, g4, g5, g6, f2]
  have f3 : getOpt
      [("model", JVal.str mv),
       ("messages", JVal.arr ((c :: cs).map encodeMsg)),
       ("max_tokens", mt), ("temperature", t), ("top_p", tp), ("stream", s)]
      "model" = some (JVal.str mv) := rfl
  rw [f3, f1]
  rfl

/-- Witness for C4: the spec scenario request re-validates to itself. -/
theorem claim_C4_idempotent_witness :
    validate_chat_request helloValidated = Except.ok helloValidated :=
  claim_C4_idempotent helloPayload helloValidated rfl

/-- C3: the spec scenario input produces the fully defaulted request, and in
general every successful validation yields a dict with all six fields present
where each unset optional field carries its documented default. -/
theorem claim_C3_scenario_defaults :
    validate_chat_request helloPayload = Except.ok helloValidated ∧
    (∀ p q, validate_chat_request p = Except.ok q →
      (jget q "model").isSome ∧ (jget q "messages").isSome ∧
      (jget q "max_tokens").isSome ∧ (jget q "temperature").isSome ∧
      (jget q "top_p").isSome ∧ (jget q "stream").isSome ∧
      (getOpt p "model" = none → jget q "model" = some (JVal.str "local-model")) ∧
      (getOpt p "max_tokens" = none → jget q "max_tokens" = some (JVal.int 512)) ∧
      (getOpt p "temperature" = none → jget q "temperature" = some (JVal.num (7/10))) ∧
      (getOpt p "top_p" = none → jget q "top_p" = some (JVal.int 1)) ∧
      (getOpt p "stream" = none → jget q "stream" = some (JVal.bool false))) := by
  refine ⟨rfl, ?_⟩
  intro p q h
  obtain ⟨ms, _, _, _, _, _, _, hq⟩ := validate_ok_build p q h
  subst hq
  refine ⟨rfl, rfl, rfl, rfl, rfl, rfl, ?_, ?_, ?_, ?_, ?_⟩
  · intro hn
    have e : jget (buildValidated p ms) "model" =
        some (pyOr (getOpt p "model") (JVal.str "local-model")) := rfl
    rw [e, hn]
    rfl
  · intro hn
    have e : jget (buildValidated p ms) "max_tokens" =
        some (pyOr (getOpt p "max_tokens") (JVal.int 512)) := rfl
    rw [e, hn]
    rfl
  · intro hn
    have e : jget (buildValidated p ms) "temperature" =
        some (ifNoneD (getOpt p "temperature") (JVal.num (7/10))) := rfl
    rw [e, hn]
    rfl
  · intro hn
    have e : jget (buildValidated p ms) "top_p" =
        some (ifNoneD (getOpt p "top_p") (JVal.int 1)) := rfl
    rw [e, hn]
    rfl
  · intro hn
    have e : jget (buildValidated p ms) "stream" =
        some (ifNoneD (getOpt p "stream") (JVal.bool false)) := rfl
    rw [e, hn]
    rfl

/-- Witness for C3: the general part applied to the scenario payload, whose
`max_tokens` is unset and defaults to 512. -/
theorem claim_C3_scenario_defaults_witness :
    getOpt helloPayload "max_tokens" = none ∧
    jget helloValidated "max_tokens" = some (JVal.int 512) :=
  ⟨rfl, (claim_C3_scenario_defaults.2 helloPayload helloValidated
    rfl).2.2.2.2.2.2.2.1 rfl⟩

/-- Payload with a boolean `max_tokens` (Python `isinstance(True, int)` holds). -/
def boolMaxPayload : JObj :=
  [("messages", JVal.arr [JVal.obj [("role", JVal.str "user"), ("content", JVal.str "Hello")]]),
   ("max_tokens", JVal.bool true)]

/-- Payload with a boolean `temperature`. -/
def boolTempPayload : JObj :=
  [("messages", JVal.arr [JVal.obj [("role", JVal.str "user"), ("content", JVal.str "Hello")]]),
   ("temperature", JVal.bool true)]

/-- Payload with a boolean `top_p`. -/
def boolTopPPayload : JObj :=
  [("messages", JVal.arr [JVal.obj [("role", JVal.str "user"), ("content", JVal.str "Hello")]]),
   ("top_p", JVal.bool true)]

/-- C10: booleans pass the numeric checks because Python `bool` is a subclass
of `int` — validation succeeds, no ValidationError is raised, and the boolean
value itself lands in the validated request, for `max_tokens`, `temperature`
and `top_p` alike. -/
theorem claim_C10_bool_passes_numeric_checks :
    validate_chat_request boolMaxPayload = Except.ok
      [("model", JVal.str "local-model"),
       ("messages", JVal.arr [JVal.obj [("role", JVal.str "user"), ("content", JVal.str "Hello")]]),
       ("max_tokens", JVal.bool true),
       ("temperature", JVal.num (7/10)),
       ("top_p", JVal.int 1),
       ("stream", JVal.bool false)] ∧
    validate_chat_request boolTempPayload = Except.ok
      [("model", JVal.str "local-model"),
       ("messages", JVal.arr [JVal.obj [("role", JVal.str "user"), ("content", JVal.str "Hello")]]),
       ("max_tokens", JVal.int 512),
       ("temperature", JVal.bool true),
       ("top_p", JVal.int 1),
       ("stream", JVal.bool false)] ∧
    validate_chat_request boolTopPPayload = Except.ok
      [("model", JVal.str "local-model"),
       ("messages", JVal.arr [JVal.obj [("role", JVal.str "user"), ("content", JVal.str "Hello")]]),
       ("max_tokens", JVal.int 512),
       ("temperature", JVal.num (7/10)),
       ("top_p", JVal.bool true),
       ("stream", JVal.bool false)] :=
  ⟨rfl, rfl, rfl⟩


/-- The redacted projection of one normalized message: role retained, content
replaced by its character length. -/
def redactedMsg (m : ChatMsg) : JVal :=
  JVal.obj [("role", JVal.str m.role),
            ("content_length", JVal.int (Int.ofNat m.content.length))]

/-- Filtering the encoded messages down to dicts recovers exactly the field
lists of the normalized messages (every encoded message is a dict). -/
theorem filterMap_encodeMsg (ms : List ChatMsg) :
    (ms.map encodeMsg).filterMap
      (fun m => match m with | JVal.obj f => some f | _ => none) =
    ms.map (fun m => [("role", JVal.str m.role), ("content", JVal.str m.content)]) := by
  induction ms with
  | nil => rfl
  | cons c cs ih => simp [encodeMsg, ih]

/-- Redacting the field list of a normalized message always succeeds and
produces the role/content-length projection. -/
theorem redactMsg_encode (m : ChatMsg) :
    redactMsg [("role", JVal.str m.role), ("content", JVal.str m.content)] =
      some (redactedMsg m) := rfl

/-- Redaction over the whole normalized message list succeeds elementwise. -/
theorem redactMsgs_encode (ms : List ChatMsg) :
    redactMsgs (ms.map (fun m => [("role", JVal.str m.role), ("content", JVal.str m.content)])) =
      some (ms.map redactedMsg) := by
  induction ms with
  | nil => rfl
  | cons c cs ih => simp [redactMsgs, redactMsg_encode c, ih]

/-- The string atoms of the redacted message list are exactly the roles. -/
theorem jstrsList_redactedMsg (ms : List ChatMsg) :
    jstrsList (ms.map redactedMsg) = ms.map ChatMsg.role := by
  induction ms with
  | nil => rfl
  | cons c cs ih => simp [redactedMsg, jstrsList, jstrs, jstrsObj, ih]

/-- C5 as amended: redacting a validated request preserves the message count
and the role and content length of each message, and every string value in the
redacted output is either the model name or one of the roles — so the
original content string never appears unless it coincides with a role or the
model value. -/
theorem claim_C5_amended (p q r : JObj)
    (hv : validate_chat_request p = Except.ok q)
    (hr : redact_for_logs q = some r) :
    ∃ (ms : List ChatMsg) (mv : String) (mt t tp s : JVal),
      jget q "messages" = some (JVal.arr (ms.map encodeMsg)) ∧
      r = [("model", JVal.str mv),
           ("messages", JVal.arr (ms.map redactedMsg)),
           ("max_tokens", mt), ("temperature", t), ("top_p", tp), ("stream", s)] ∧
      (ms.map redactedMsg).length = ms.length ∧
      (∀ x, x ∈ jstrsObj r → x = mv ∨ x ∈ ms.map ChatMsg.role) := by
  obtain ⟨c, cs, mv, mt, t, tp, s, hq, hml, hmv, hcm, hmt, hmn, hmtj, hct, htn, htj,
          hcp, hpn, hpj, hcs, hsn, hsj⟩ := validate_ok_shape p q hv
  subst hq
  have hred : redact_for_logs
      [("model", JVal.str mv),
       ("messages", JVal.arr ((c :: cs).map encodeMsg)),
       ("max_tokens", mt), ("temperature", t), ("top_p", tp), ("stream", s)] =
      some [("model", JVal.str mv),
            ("messages", JVal.arr ((c :: cs).map redactedMsg)),
            ("max_tokens", mt), ("temperature", t), ("top_p", tp), ("stream", s)] := by
    have e0 : lookupD
        [("model", JVal.str mv),
         ("messages", JVal.arr ((c :: cs).map encodeMsg)),
         ("max_tokens", mt), ("temperature", t), ("top_p", tp), ("stream", s)]
        "messages" (JVal.arr []) = JVal.arr ((c :: cs).map encodeMsg) := rfl
    simp only [redact_for_logs, e0, iterElems, Option.bind_eq_bind, Option.some_bind,
               filterMap_encodeMsg, redactMsgs_encode]
    rfl
  rw [hred] at hr
  injection hr with hr
  subst hr
  refine ⟨c :: cs, mv, mt, t, tp, s, rfl, rfl, by simp, ?_⟩
  intro x hx
  have hobj : jstrsObj
      [("model", JVal.str mv),
       ("messages", JVal.arr ((c :: cs).map redactedMsg)),
       ("max_tokens", mt), ("temperature", t), ("top_p", tp), ("stream", s)] =
      mv :: (c :: cs).map ChatMsg.role := by
    simp [jstrsObj, jstrs, hmtj, htj, hpj, hsj]
    simpa using jstrsList_redactedMsg (c :: cs)
  rw [hobj] at hx
  simpa using hx

/-- Payload whose message content coincides with its role string. -/
def contentRolePayload : JObj :=
  [("messages", JVal.arr [JVal.obj [("role", JVal.str "user"), ("content", JVal.str "user")]])]

/-- The validated form of `contentRolePayload`. -/
def contentRoleValidated : JObj :=
  [("model", JVal.str "local-model"),
   ("messages", JVal.arr [JVal.obj [("role", JVal.str "user"), ("content", JVal.str "user")]]),
   ("max_tokens", JVal.int 512),
   ("temperature", JVal.num (7/10)),
   ("top_p", JVal.int 1),
   ("stream", JVal.bool false)]

/-- The redacted form of `contentRoleValidated`. -/
def contentRoleRedacted : JObj :=
  [("model", JVal.str "local-model"),
   ("messages", JVal.arr [JVal.obj [("role", JVal.str "user"),
                                    ("content_length", JVal.int 4)]]),
   ("max_tokens", JVal.int 512),
   ("temperature", JVal.num (7/10)),
   ("top_p", JVal.int 1),
   ("stream", JVal.bool false)]

/-- Counterexample to C5 as stated: for the valid request whose single
message has content "user" (equal to its role), the redacted output does
contain the original content string — it appears as the retained role value. -/
theorem claim_C5_counterexample :
    validate_chat_request contentRolePayload = Except.ok contentRoleValidated ∧
    redact_for_logs contentRoleValidated = some contentRoleRedacted ∧
    "user" ∈ jstrsObj contentRoleRedacted := by
  refine ⟨rfl, rfl, ?_⟩
  simp [contentRoleRedacted, jstrsObj, jstrs, jstrsList]

/-- The redacted form of `helloValidated`. -/
def helloRedacted : JObj :=
  [("model", JVal.str "local-model"),
   ("messages", JVal.arr [JVal.obj [("role", JVal.str "user"),
                                    ("content_length", JVal.int 5)]]),
   ("max_tokens", JVal.int 512),
   ("temperature", JVal.num (7/10)),
   ("top_p", JVal.int 1),
   ("stream", JVal.bool false)]

/-- Witness for the amended C5 at the spec scenario request. -/
theorem claim_C5_amended_witness :
    ∃ (ms : List ChatMsg) (mv : String) (mt t tp s : JVal),
      jget helloValidated "messages" = some (JVal.arr (ms.map encodeMsg)) ∧
      helloRedacted = [("model", JVal.str mv),
           ("messages", JVal.arr (ms.map redactedMsg)),
           ("max_tokens", mt), ("temperature", t), ("top_p", tp), ("stream", s)] ∧
      (ms.map redactedMsg).length = ms.length ∧
      (∀ x, x ∈ jstrsObj helloRedacted → x = mv ∨ x ∈ ms.map ChatMsg.role) :=
  claim_C5_amended helloPayload helloValidated helloRedacted rfl rfl

/-- Loop invariant for an all-5xx upstream: with `fuel` iterations left and
every attempt answering a 5xx `HTTPError`, the loop performs exactly `fuel`
further attempts with `fuel - 1` backoffs and raises the last message. -/
theorem callFrom_all_5xx (responses : Nat → HttpResult) (codes : Nat → Int)
    (msgs : Nat → String)
    (hall : ∀ i, responses i = HttpResult.httpError (some (codes i)) (msgs i) ∧
      500 ≤ codes i ∧ codes i ≤ 599) (retries : Nat) :
    ∀ (fuel attempt : Nat) (le : Option String), attempt + fuel = retries + 1 → 1 ≤ fuel →
      callFrom responses retries fuel attempt le =
        ⟨fuel, fuel - 1, Except.error (msgs retries)⟩ := by
  intro fuel
  induction fuel with
  | zero => intro attempt le hsum h1; exact absurd h1 (by omega)
  | succ f ih =>
    intro attempt le hsum _
    obtain ⟨hr, h5, h6⟩ := hall attempt
    simp only [callFrom, hr]
    rw [if_neg (not_not_intro ⟨h5, by omega⟩)]
    cases f with
    | zero =>
      have ha : attempt = retries := by omega
      rw [if_pos (by omega : attempt ≥ retries), ha]
      rfl
    | succ g =>
      rw [if_neg (by omega : ¬ attempt ≥ retries)]
      rw [ih (attempt + 1) (some (msgs attempt)) (by omega) (by omega)]
      rfl

/-- C1: with every upstream attempt answering 5xx, `call_lm_studio` makes
exactly `retries + 1` attempts with `retries` backoffs and raises a
ConnectionError; with the first attempt answering 4xx it makes exactly one
attempt, performs no backoff, and raises immediately. -/
theorem claim_C1_retry_classification (r : Nat) (responses : Nat → HttpResult)
    (codes : Nat → Int) (msgs : Nat → String) :
    ((∀ i, responses i = HttpResult.httpError (some (codes i)) (msgs i) ∧
        500 ≤ codes i ∧ codes i ≤ 599) →
      call_lm_studio r responses = ⟨r + 1, r, Except.error (msgs r)⟩) ∧
    (∀ c m, responses 0 = HttpResult.httpError (some c) m → 400 ≤ c → c ≤ 499 →
      call_lm_studio r responses = ⟨1, 0, Except.error m⟩) := by
  constructor
  · intro hall
    have h := callFrom_all_5xx responses codes msgs hall r (r + 1) 0 none (by omega) (by omega)
    simpa [call_lm_studio] using h
  · intro c m h0 h4 h9
    unfold call_lm_studio
    simp only [callFrom, h0]
    rw [if_pos (show ¬ (500 ≤ c ∧ c < 600) from fun hc => by omega)]
    rfl

/-- A constant-503 upstream. -/
def resp503 : Nat → HttpResult :=
  fun _ => HttpResult.httpError (some 503) "HTTP Error 503: Service Unavailable"

/-- A constant-404 upstream. -/
def resp404 : Nat → HttpResult :=
  fun _ => HttpResult.httpError (some 404) "HTTP Error 404: Not Found"

/-- Witness for C1: the two spec scenarios — 503 everywhere with retries 2
gives 3 attempts and 2 backoffs; 404 on the first attempt gives 1 attempt and
no backoff. -/
theorem claim_C1_retry_classification_witness :
    call_lm_studio 2 resp503 = ⟨3, 2, Except.error "HTTP Error 503: Service Unavailable"⟩ ∧
    call_lm_studio 2 resp404 = ⟨1, 0, Except.error "HTTP Error 404: Not Found"⟩ := by
  constructor
  · exact (claim_C1_retry_classification 2 resp503 (fun _ => 503)
      (fun _ => "HTTP Error 503: Service Unavailable")).1
      (fun i => ⟨rfl, by norm_num, by norm_num⟩)
  · exact (claim_C1_retry_classification 2 resp404 (fun _ => 404)
      (fun _ => "HTTP Error 404: Not Found")).2 404 "HTTP Error 404: Not Found"
      rfl (by norm_num) (by norm_num)

/-- C6 (code bug): `log_json` propagates the `TypeError` that `json.dumps`
raises on a field value it cannot serialize — there is no handler around the
serialization, so logging a non-serializable field does raise. -/
theorem claim_C6_log_json_raises :
    log_json "2024-01-01T00:00:00Z" "info" "test" [("sample", PyVal.pyraw "set")] =
      Except.error "TypeError: object is not JSON serializable" := rfl

/-- An oversized stdin stream: 1281 full 8192-byte chunks exceed the 10 MiB cap. -/
def bigChunks : List Nat := List.replicate 1281 8192

set_option maxRecDepth 20000 in
/-- Counterexample to C8 as stated: an over-cap input exits with status 1,
which is exactly the status used for validation failures (here: an empty
body), so the over-cap status is not distinct from the validation-failure
status. -/
theorem claim_C8_counterexample :
    stdinOverCap 0 bigChunks = true ∧
    handle_stdin 0 (fun _ => HttpResult.urlError "unused") bigChunks
      (RawBody.value (JVal.obj helloPayload)) = ⟨[tooLargeLine], 1⟩ ∧
    handle_stdin 0 (fun _ => HttpResult.urlError "unused") [16] RawBody.empty =
      ⟨[JVal.obj [("error", JVal.str "Empty request body")]], 1⟩ :=
  ⟨rfl, rfl, rfl⟩

/-- C8 as amended: an over-cap stdin stream yields exactly one error line and
exit status 1 — non-zero and distinct from the connection-failure status 2,
but shared with the validation-failure status — and the outcome does not
depend on the stream contents or the upstream, i.e. the partial data is never
parsed, validated or forwarded. -/
theorem claim_C8_amended (retries : Nat) (responses : Nat → HttpResult)
    (chunks : List Nat) (body : RawBody) (h : stdinOverCap 0 chunks = true) :
    handle_stdin retries responses chunks body = ⟨[tooLargeLine], 1⟩ := by
  unfold handle_stdin
  rw [if_pos (by simp [h])]

set_option maxRecDepth 20000 in
/-- Witness for the amended C8 at a concrete oversized stream. -/
theorem claim_C8_amended_witness :
    stdinOverCap 0 (List.replicate 1300 8192) = true ∧
    handle_stdin 1 (fun _ => HttpResult.urlError "down") (List.replicate 1300 8192)
      RawBody.empty = ⟨[tooLargeLine], 1⟩ :=
  ⟨rfl, claim_C8_amended 1 (fun _ => HttpResult.urlError "down")
    (List.replicate 1300 8192) RawBody.empty rfl⟩

/-- Counterexample to C9 as stated: out-of-range integer environment values
are accepted without any fatal error for all three options — port -1 and
port 70000, a negative timeout, and a negative retry count all resolve
successfully, so the process starts with them in effect. -/
theorem claim_C9_counterexample :
    resolveConfigInts (some "-1") none none = Except.ok (-1, 30, 2) ∧
    resolveConfigInts (some "70000") none none = Except.ok (70000, 30, 2) ∧
    resolveConfigInts none (some "-5") none = Except.ok (8081, -5, 2) ∧
    resolveConfigInts none none (some "-3") = Except.ok (8081, 30, -3) :=
  ⟨rfl, rfl, rfl, rfl⟩

/-- C9 as amended: a non-numeric, non-blank environment value for the listen
port, the timeout or the retry count is a fatal configuration error reported
before any service starts (stated over the `envCharOK` character domain on
which the `int()` model is exact); any values that parse as integers —
underscore-separated digit groups included — are accepted as-is for all
three options, with no range validation. -/
theorem claim_C9_amended :
    (∀ s te re, s.data.all envCharOK = true → pyStrip s ≠ "" → pyParseInt s = none →
      resolveConfigInts (some s) te re =
        Except.error ("LOCAL_AI_LISTEN_PORT must be an integer, got: " ++ s)) ∧
    (∀ s re, s.data.all envCharOK = true → pyStrip s ≠ "" → pyParseInt s = none →
      resolveConfigInts none (some s) re =
        Except.error ("LOCAL_AI_TIMEOUT must be an integer, got: " ++ s)) ∧
    (∀ s, s.data.all envCharOK = true → pyStrip s ≠ "" → pyParseInt s = none →
      resolveConfigInts none none (some s) =
        Except.error ("LOCAL_AI_RETRIES must be an integer, got: " ++ s)) ∧
    (∀ sp st sr np nt nr,
      pyStrip sp ≠ "" → pyParseInt sp = some np →
      pyStrip st ≠ "" → pyParseInt st = some nt →
      pyStrip sr ≠ "" → pyParseInt sr = some nr →
      resolveConfigInts (some sp) (some st) (some sr) = Except.ok (np, nt, nr)) := by
  refine ⟨?_, ?_, ?_, ?_⟩
  · intro s te re hdom htrim hp
    have hs : s ≠ "" := fun he => htrim (by rw [he]; rfl)
    simp only [resolveConfigInts, resolveEnvInt]
    rw [if_pos ⟨hs, htrim⟩]
    simp only [hp]
  · intro s re hdom htrim hp
    have hs : s ≠ "" := fun he => htrim (by rw [he]; rfl)
    simp only [resolveConfigInts, resolveEnvInt]
    rw [if_pos ⟨hs, htrim⟩]
    simp only [hp]
  · intro s hdom htrim hp
    have hs : s ≠ "" := fun he => htrim (by rw [he]; rfl)
    simp only [resolveConfigInts, resolveEnvInt]
    rw [if_pos ⟨hs, htrim⟩]
    simp only [hp]
  · intro sp st sr np nt nr htp hpp htt hpt htr hpr
    have hsp : sp ≠ "" := fun he => htp (by rw [he]; rfl)
    have hst : st ≠ "" := fun he => htt (by rw [he]; rfl)
    have hsr : sr ≠ "" := fun he => htr (by rw [he]; rfl)
    simp only [resolveConfigInts, resolveEnvInt]
    rw [if_pos ⟨hsp, htp⟩]
    simp only [hpp]
    rw [if_pos ⟨hst, htt⟩]
    simp only [hpt]
    rw [if_pos ⟨hsr, htr⟩]
    simp only [hpr]

/-- Witness for the amended C9: a non-numeric port value is fatal, and three
integer values — one with a PEP 515 underscore separator, one negative — are
accepted verbatim for port, timeout and retries. -/
theorem claim_C9_amended_witness :
    resolveConfigInts (some "30s") none none =
      Except.error ("LOCAL_AI_LISTEN_PORT must be an integer, got: " ++ "30s") ∧
    resolveConfigInts (some "9000") (some "1_0") (some "-3") =
      Except.ok (9000, 10, -3) :=
  ⟨claim_C9_amended.1 "30s" none none (by decide) (by decide) rfl,
   claim_C9_amended.2.2.2 "9000" "1_0" "-3" 9000 10 (-3)
     (by decide) rfl (by decide) rfl (by decide) rfl⟩
